import Mathlib

/- A verification development for the clastic routing core (src/clastic/routing.py).
   Pure shallow embedding: the pattern compiler, the route matcher, the converter
   builder and the binding machinery are translated from the source; the external
   collaborators that live outside the provided source tree (inject, middleware
   helpers, the NotFound signal) are modelled from the specification. -/

namespace Clastic

/-- A character matched by the character class of the source segment template,
that is ASCII word characters, digits and the percent sign. -/
def pathSafeChar (c : Char) : Bool :=
  c.isAlphanum || c = '_' || c = '%'

/-- Values produced by path-binding converters. vnone models the Python None
returned for an empty optional capture; vlist models the list built by a
multi converter; vfloat keeps a decimal literal exactly as mantissa and shift. -/
inductive Val where
  | vstr (s : List Char)
  | vint (n : Int)
  | vfloat (num : Int) (shift : Nat)
  | vnone
  | vlist (vs : List Val)

/-- Python-style split of a character list on a one-character separator,
keeping empty pieces, as str.split with an explicit separator does. -/
def pySplit (sep : Char) : List Char → List (List Char)
  | [] => [[]]
  | c :: rest =>
    if c = sep then [] :: pySplit sep rest
    else
      match pySplit sep rest with
      | s :: ss => (c :: s) :: ss
      | [] => [[c]]

def digitVal (c : Char) : Nat := c.toNat - '0'.toNat

def digitsToNat (cs : List Char) : Nat := cs.foldl (fun a c => a * 10 + digitVal c) 0

def allDigits (cs : List Char) : Bool := cs.all Char.isDigit

def isPySpace (c : Char) : Bool :=
  c = ' ' || c = '\t' || c = '\n' || c = '\r' || c = '\x0b' || c = '\x0c'

def stripWs (cs : List Char) : List Char :=
  ((cs.dropWhile isPySpace).reverse.dropWhile isPySpace).reverse

def parseDigits (ds : List Char) : Option Nat :=
  if ds.isEmpty then none else if allDigits ds then some (digitsToNat ds) else none

/-- Python int applied to a string: optional surrounding whitespace, an optional
sign and a nonempty ASCII digit run; anything else raises, modelled as none. -/
def pyInt (cs0 : List Char) : Option Int :=
  match stripWs cs0 with
  | '-' :: ds => (parseDigits ds).map (fun n => -(n : Int))
  | '+' :: ds => (parseDigits ds).map (fun n => (n : Int))
  | ds => (parseDigits ds).map (fun n => (n : Int))

/-- Python float applied to the decimal literal forms reachable from path captures:
optional whitespace and sign, digits with at most one dot and at least one digit.
The value is kept exactly as mantissa and decimal shift; binary rounding is not
modelled, and no claim observes a float value. -/
def pyFloat (cs0 : List Char) : Option (Int × Nat) :=
  let core : List Char → Option (Nat × Nat) := fun body =>
    match pySplit '.' body with
    | [ip] => (parseDigits ip).map (fun n => (n, 0))
    | [ip, fp] =>
      if (ip.isEmpty && fp.isEmpty) || !allDigits ip || !allDigits fp then none
      else some (digitsToNat (ip ++ fp), fp.length)
    | _ => none
  match stripWs cs0 with
  | '-' :: ds => (core ds).map (fun p => (-(p.1 : Int), p.2))
  | '+' :: ds => (core ds).map (fun p => ((p.1 : Int), p.2))
  | ds => (core ds).map (fun p => ((p.1 : Int), p.2))

/-- A scalar or built converter: raw capture text to a value, with none standing
for a raised conversion error. -/
def Conv := List Char → Option Val

def unicodeConv : Conv := fun cs => some (.vstr cs)

def intConv : Conv := fun cs => (pyInt cs).map Val.vint

def floatConv : Conv := fun cs => (pyFloat cs).map (fun p => Val.vfloat p.1 p.2)

/-- Association-list lookup keyed by strings, first hit wins, mirroring a
dictionary lookup. -/
def alookup {α : Type} : List (String × α) → String → Option α
  | [], _ => none
  | (k, v) :: rest, key => if k = key then some v else alookup rest key

/-- The fixed converter registry TYPE_CONV_MAP of the source. -/
def TYPE_CONV_MAP : List (String × Conv) :=
  [("int", intConv), ("float", floatConv), ("unicode", unicodeConv), ("str", unicodeConv)]

/-- build_converter from the source: a multi converter splits the raw capture on
slashes, drops the leading empty piece and converts each token; a single
converter removes slashes and converts the remainder; an empty capture with the
optional flag yields an empty list or an absent value. The source never passes
the optional flag from _compile. -/
def build_converter (conv : Conv) (opt : Bool) (multi : Bool) : Conv :=
  if multi then
    fun value =>
      if value.isEmpty && opt then some (.vlist [])
      else (((pySplit '/' value).drop 1).mapM conv).map Val.vlist
  else
    fun value =>
      if value.isEmpty && opt then some .vnone
      else conv (value.filter (fun c => !(c = '/')))

/-- The repetition suffix attached to a binding sub-pattern in the compiled
regular expression: exactly one, zero or one, one or more, zero or more. -/
inductive Arity where
  | one | opt | plus | star
deriving DecidableEq

def Arity.lo : Arity → Nat
  | .one => 1 | .plus => 1 | .opt => 0 | .star => 0

def Arity.capped : Arity → Bool
  | .one => true | .opt => true | .plus => false | .star => false

/-- One piece of the compiled regular expression: literal text, or a named group
whose body is a slash followed by one path-safe character, repeated per arity. -/
inductive Part where
  | lit (s : List Char)
  | grp (name : String) (ar : Arity)
deriving DecidableEq

/-- Greatest number of leading slash-plus-path-safe-character pairs of a path. -/
def maxPairs : List Char → Nat
  | '/' :: c :: rest => if pathSafeChar c then maxPairs rest + 1 else 0
  | _ => 0

/-- The list top, top minus one, down to lo; empty when top is below lo. Used to
realise the greedy, backtracking repeat count search of the regex engine. -/
def descRange (lo top : Nat) : List Nat :=
  (List.range (top + 1 - lo)).map (fun i => top - i)

/-- Anchored match of a part list against a path, with named captures. Repetition
counts are tried greedily from the largest feasible value downwards, exactly as
the regex engine backtracks over the generated pattern. The fuel argument is
always at least the number of parts, which bounds the recursion depth. -/
def matchPartsF : Nat → List Part → List Char → Option (List (String × List Char))
  | 0, _, _ => none
  | _ + 1, [], cs => if cs.isEmpty then some [] else none
  | fuel + 1, .lit s :: ps, cs =>
    if s.isPrefixOf cs then matchPartsF fuel ps (cs.drop s.length) else none
  | fuel + 1, .grp n ar :: ps, cs =>
    let m := maxPairs cs
    let top := if ar.capped then min m 1 else m
    (descRange ar.lo top).findSome? fun k =>
      (matchPartsF fuel ps (cs.drop (2 * k))).map
        (fun caps => (n, cs.take (2 * k)) :: caps)

/-- A compiled route body: the regular expression as a part list, plus the
binding-name to converter mapping, in registration order. -/
structure Compiled where
  parts : List Part
  converters : List (String × Conv)

def isNameStartChar (c : Char) : Bool := c.isAlpha || c = '_'

def isWordChar (c : Char) : Bool := c.isAlphanum || c = '_'

def isOpChar (c : Char) : Bool := c = '?' || c = '+' || c = ':' || c = '*'

/-- Result of the BINDING regular expression on one segment. -/
structure BindingMatch where
  name : String
  op : String
  type? : Option String
deriving DecidableEq

/-- The BINDING regular expression applied to one template segment, anchored at
the start only: a name of word characters led by a letter or underscore, a
possibly empty run of operator characters, an optional word-character type name,
then the closing angle bracket; trailing text after it is ignored. -/
def parseBinding : List Char → Option BindingMatch
  | '<' :: c :: rest =>
    if isNameStartChar c then
      let nm := c :: rest.takeWhile isWordChar
      let afterName := rest.dropWhile isWordChar
      let ops := afterName.takeWhile isOpChar
      let afterOps := afterName.dropWhile isOpChar
      let ty := afterOps.takeWhile isWordChar
      match afterOps.dropWhile isWordChar with
      | '>' :: _ =>
        some ⟨String.mk nm, String.mk ops, if ty.isEmpty then none else some (String.mk ty)⟩
      | _ => none
    else none
  | _ => none

/-- Configuration errors raised by route compilation. indexError models the list
index failure hit when a binding is the first segment of the template. -/
inductive CompileErr where
  | duplicateBinding (name : String)
  | unknownType (typeName : String)
  | unknownOp (op : String)
  | indexError
deriving DecidableEq

/-- The arity table _OP_ARITY_MAP of the source: whether an operator is multi. -/
def opArityMap : String → Option Bool
  | "" => some false
  | "?" => some false
  | ":" => some false
  | "+" => some true
  | "*" => some true
  | _ => none

/-- Regex repetition for a normalised operator string. -/
def arityOfOp : String → Arity
  | "?" => .opt
  | "+" => .plus
  | "*" => .star
  | _ => .one

/-- Compilation state: processed elements in reverse order, and the converter
registrations so far. -/
structure CompState where
  processed : List (List Part)
  convs : List (String × Conv)

/-- Operator normalisation and converter resolution for one binding: an empty
operator keeps the text default; otherwise the colon is normalised away, the
type name defaults to text, and an unknown type name is a configuration error. -/
def resolveOpConv (b : BindingMatch) : Except CompileErr (String × Conv) :=
  if b.op = "" then .ok ("", unicodeConv)
  else
    let op := if b.op = ":" then "" else b.op
    let tyName := b.type?.getD "unicode"
    match alookup TYPE_CONV_MAP tyName with
    | none => .error (.unknownType tyName)
    | some c => .ok (op, c)

/-- Processing of one binding segment: duplicate check first, then operator and
type resolution, then arity lookup, converter registration and glueing of the
group onto the previous processed element; an initial binding segment hits the
list index failure on the empty processed list. -/
def processBinding (st : CompState) (b : BindingMatch) : Except CompileErr CompState :=
  if (alookup st.convs b.name).isSome then .error (.duplicateBinding b.name)
  else
    match resolveOpConv b with
    | .error e => .error e
    | .ok (op, conv) =>
      match opArityMap op with
      | none => .error (.unknownOp op)
      | some multi =>
        match st.processed with
        | [] => .error .indexError
        | e :: rest =>
          .ok { processed := (e ++ [Part.grp b.name (arityOfOp op)]) :: rest,
                convs := st.convs ++ [(b.name, build_converter conv false multi)] }

/-- One iteration of the segment loop of BaseRoute._compile: a non-binding
segment is copied verbatim; a binding segment goes through processBinding. -/
def processSegment (st : CompState) (seg : List Char) : Except CompileErr CompState :=
  match parseBinding seg with
  | none => .ok { st with processed := [Part.lit seg] :: st.processed }
  | some b => processBinding st b

def compileSegs : CompState → List (List Char) → Except CompileErr CompState
  | st, [] => .ok st
  | st, seg :: rest =>
    match processSegment st seg with
    | .error e => .error e
    | .ok st2 => compileSegs st2 rest

/-- Join the processed elements with literal slashes, as the source joins the
processed list before compiling the anchored expression. -/
def joinSlash : List (List Part) → List Part
  | [] => []
  | [e] => e
  | e :: rest => e ++ Part.lit ['/'] :: joinSlash rest

/-- BaseRoute._compile: split the template on slashes, process each segment and
assemble the fully anchored matcher plus the converter mapping. -/
def _compile (pattern : String) : Except CompileErr Compiled :=
  match compileSegs ⟨[], []⟩ (pySplit '/' pattern.toList) with
  | .error e => .error e
  | .ok st => .ok ⟨joinSlash st.processed.reverse, st.convs⟩

/-- Apply the compiled regular expression to a path, returning the named raw
captures on a textual match. -/
def regexMatch (c : Compiled) (path : String) : Option (List (String × List Char)) :=
  matchPartsF (c.parts.length + 1) c.parts path.toList

/-- The conversion loop of BaseRoute.match_path: each converter is applied to the
raw capture looked up under its name; a missing capture or a conversion failure
aborts the whole loop. -/
def applyConverters (groups : List (String × List Char)) :
    List (String × Conv) → Option (List (String × Val))
  | [] => some []
  | (n, conv) :: rest =>
    match (alookup groups n).bind conv with
    | none => none
    | some v => (applyConverters groups rest).map (fun m => (n, v) :: m)

/-- BaseRoute.match_path: regular-expression match, then per-binding conversion;
any failure collapses to the no-match result. -/
def match_path (c : Compiled) (path : String) : Option (List (String × Val)) :=
  match regexMatch c path with
  | none => none
  | some groups => applyConverters groups c.converters

def fallbackCompiled : Compiled := ⟨[], []⟩

def apiRoute : Compiled :=
  (_compile "/api/<service>/<path+>").toOption.getD fallbackCompiled

def blogRoute : Compiled :=
  (_compile "/blog/<post_id?int>").toOption.getD fallbackCompiled

def nullRoutePattern : Compiled :=
  (_compile "/<_ignored*>").toOption.getD fallbackCompiled

/-- C1: the template of the claim compiles, but the generated sub-pattern accepts
exactly one path-safe character per consumed token, so the path of the claim is
rejected outright; only single-character segments match, and the trailing-slash
path is also rejected. This records the code bug refuting the claimed match. -/
theorem c1_api_route_single_char_code_bug :
    (_compile "/api/<service>/<path+>").toOption.isSome = true
    ∧ match_path apiRoute "/api/foo/a/b/c" = none
    ∧ match_path apiRoute "/api/f/a/b/c" =
        some [("service", Val.vstr ['f']),
              ("path", Val.vlist [Val.vstr ['a'], Val.vstr ['b'], Val.vstr ['c']])]
    ∧ match_path apiRoute "/api/foo/" = none := by
  exact ⟨rfl, rfl, rfl, rfl⟩

/-- C2: the blog template compiles, but the claimed behaviours fail twice over:
the one-character sub-pattern rejects the two-digit path, and because _compile
never passes the optional flag to build_converter, an empty capture feeds the
integer converter the empty string, so the empty cases give no-match instead of
an absent value. Only one-digit paths match; a letter still fails conversion. -/
theorem c2_blog_route_optional_int_code_bug :
    (_compile "/blog/<post_id?int>").toOption.isSome = true
    ∧ match_path blogRoute "/blog/42" = none
    ∧ match_path blogRoute "/blog/" = none
    ∧ match_path blogRoute "/blog" = none
    ∧ match_path blogRoute "/blog/abc" = none
    ∧ match_path blogRoute "/blog/4" = some [("post_id", Val.vint 4)] := by
  exact ⟨rfl, rfl, rfl, rfl, rfl, rfl⟩

/-- Modelled from the spec: the non-breaking not-found control signal raised by
the fallback endpoint (clastic._errors.NotFound is not under src); only its
breaking flag is observable to this core. -/
structure NotFoundSig where
  is_breaking : Bool
deriving DecidableEq

/-- NullRoute.not_found: unconditionally raises the non-breaking not-found
signal, whatever the request; the raised signal is returned as a value here. -/
def not_found {α : Type} (_request : α) : NotFoundSig := { is_breaking := false }

/-- C5: the fallback template compiles and its endpoint unconditionally raises
the non-breaking not-found signal, but the matcher does not accept every path:
the generated sub-pattern accepts only single-character path-safe tokens, so a
multi-character segment such as foo is rejected. This records the code bug
refuting the catch-all part of the claim. -/
theorem c5_null_route_not_catch_all_code_bug :
    (_compile "/<_ignored*>").toOption.isSome = true
    ∧ match_path nullRoutePattern "" = some [("_ignored", Val.vlist [])]
    ∧ match_path nullRoutePattern "/a/b" =
        some [("_ignored", Val.vlist [Val.vstr ['a'], Val.vstr ['b']])]
    ∧ match_path nullRoutePattern "/foo" = none
    ∧ (∀ (α : Type) (request : α), not_found request = { is_breaking := false }) := by
  exact ⟨rfl, rfl, rfl, rfl, fun _ _ => rfl⟩

/-- Helper: the conversion loop returns the no-match result as soon as some
converter in the list fails on its looked-up capture. -/
theorem applyConverters_eq_none_of_fail (groups : List (String × List Char)) :
    ∀ convs : List (String × Conv),
      (∃ p ∈ convs, (alookup groups p.1).bind p.2 = none) →
      applyConverters groups convs = none := by
  intro convs
  induction convs with
  | nil =>
    rintro ⟨p, hp, -⟩
    cases hp
  | cons head tail ih =>
    rintro ⟨p, hp, hfail⟩
    obtain ⟨n, conv⟩ := head
    cases hp with
    | head =>
      unfold applyConverters
      rw [hfail]
    | tail _ hmem =>
      unfold applyConverters
      cases hh : (alookup groups n).bind conv with
      | none => rfl
      | some v => rw [ih ⟨p, hmem, hfail⟩]; rfl

/-- C7: for every compiled route and every path whose text matches the compiled
regular expression, if any binding converter fails on its raw capture, or the
capture is absent, match_path returns the no-match outcome for the whole path;
no partial mapping is returned, since the failure is total by construction. -/
theorem c7_converter_failure_gives_no_match
    (tmpl : String) (c : Compiled) (path : String)
    (groups : List (String × List Char))
    (_hc : _compile tmpl = .ok c)
    (hm : regexMatch c path = some groups)
    (hf : ∃ p ∈ c.converters, (alookup groups p.1).bind p.2 = none) :
    match_path c path = none := by
  unfold match_path
  rw [hm]
  exact applyConverters_eq_none_of_fail groups c.converters hf

/-- Witness for C7 at the blog route and a letter capture that fails integer
conversion. -/
theorem c7_witness :
    _compile "/blog/<post_id?int>" = .ok blogRoute
    ∧ regexMatch blogRoute "/blog/x" = some [("post_id", ['/', 'x'])]
    ∧ (∃ p ∈ blogRoute.converters,
        (alookup [("post_id", ['/', 'x'])] p.1).bind p.2 = none)
    ∧ match_path blogRoute "/blog/x" = none := by
  refine ⟨rfl, rfl, ⟨_, List.Mem.head _, rfl⟩, ?_⟩
  exact c7_converter_failure_gives_no_match "/blog/<post_id?int>" blogRoute "/blog/x"
    [("post_id", ['/', 'x'])] rfl rfl ⟨_, List.Mem.head _, rfl⟩

def strUpper (s : String) : String := String.mk (s.data.map Char.toUpper)

/-- The methods normalisation of the BaseRoute initialiser: a missing collection
stays missing; a supplied empty collection keeps its falsy emptiness; a nonempty
one is upper-cased member by member. -/
def mkMethods : Option (List String) → Option (List String)
  | none => none
  | some ms => if ms = [] then some [] else some (ms.map strUpper)

/-- BaseRoute.match_method: when both the request method and the declared
collection are truthy, membership of the upper-cased method decides; any falsy
side matches unconditionally. -/
def match_method (methods : Option (List String)) (method : Option String) : Bool :=
  match method, methods with
  | some m, some ms =>
    if m = "" ∨ ms = [] then true
    else ms.contains (strUpper m)
  | _, _ => true

/-- C9: for a route constructed with a nonempty declared method collection and a
nonempty request method, match_method is true exactly when the upper-cased
method belongs to the upper-cased declared collection; with no declared
collection, or no supplied method, it is always true. -/
theorem c9_match_method_case_insensitive
    (declared : List String) (m : String)
    (hd : declared ≠ []) (hm : m ≠ "") :
    (match_method (mkMethods (some declared)) (some m) = true
      ↔ strUpper m ∈ declared.map strUpper)
    ∧ (∀ method, match_method (mkMethods none) method = true)
    ∧ (∀ methods, match_method (mkMethods methods) none = true) := by
  refine ⟨?_, ?_, ?_⟩
  · have hmap : declared.map strUpper ≠ [] := by
      simpa using hd
    have h0 : mkMethods (some declared) =
        if declared = [] then some [] else some (declared.map strUpper) := rfl
    have h1 : mkMethods (some declared) = some (declared.map strUpper) := by
      rw [h0, if_neg hd]
    have h2 : match_method (some (declared.map strUpper)) (some m) =
        if m = "" ∨ declared.map strUpper = [] then true
        else (declared.map strUpper).contains (strUpper m) := rfl
    rw [h1, h2, if_neg (by push_neg; exact ⟨hm, hmap⟩)]
    exact List.elem_iff
  · intro method
    cases method <;> rfl
  · intro methods
    cases mkMethods methods <;> rfl

/-- Witness for C9: a route restricted to GET matches the lower-case method. -/
theorem c9_witness :
    (["GET"] ≠ ([] : List String)) ∧ ("get" ≠ "")
    ∧ ((match_method (mkMethods (some ["GET"])) (some "get") = true
        ↔ strUpper "get" ∈ ["GET"].map strUpper)
      ∧ (∀ method, match_method (mkMethods none) method = true)
      ∧ (∀ methods, match_method (mkMethods methods) none = true)) :=
  ⟨by decide, by decide,
    c9_match_method_case_insensitive ["GET"] "get" (by decide) (by decide)⟩

/-- The names of the binding segments of a segment list, in template order. -/
def bindingNames (segs : List (List Char)) : List String :=
  segs.filterMap (fun seg => (parseBinding seg).map BindingMatch.name)

/-- Helper: a lookup succeeds exactly when the key occurs among the keys. -/
theorem alookup_isSome_iff {α : Type} (l : List (String × α)) (k : String) :
    (alookup l k).isSome = true ↔ k ∈ l.map Prod.fst := by
  induction l with
  | nil => simp [alookup]
  | cons h t ih =>
    obtain ⟨a, b⟩ := h
    by_cases hk : a = k
    · subst hk
      simp [alookup]
    · have hk2 : ¬ k = a := fun hx => hk hx.symm
      simp [alookup, hk, hk2, ih]

/-- Helper: the duplicate check fires first, before any other validation. -/
theorem processBinding_dup {st : CompState} {b : BindingMatch}
    (h : b.name ∈ st.convs.map Prod.fst) :
    processBinding st b = .error (.duplicateBinding b.name) := by
  unfold processBinding
  rw [if_pos ((alookup_isSome_iff _ _).2 h)]

/-- Helper: a successful binding step appends exactly the new name to the
registered keys. -/
theorem processBinding_keys {st st' : CompState} {b : BindingMatch}
    (h : processBinding st b = .ok st') :
    st'.convs.map Prod.fst = st.convs.map Prod.fst ++ [b.name] := by
  unfold processBinding at h
  split at h
  · simp at h
  · split at h
    · simp at h
    · split at h
      · simp at h
      · split at h
        · simp at h
        · cases h
          simp

/-- Helper: the segment fold errors whenever a pending binding name is already
registered or the pending names themselves repeat. -/
theorem compileSegs_error_of_dup :
    ∀ (segs : List (List Char)) (st : CompState),
      ((∃ n ∈ bindingNames segs, n ∈ st.convs.map Prod.fst)
        ∨ ¬ (bindingNames segs).Nodup) →
      ∃ e, compileSegs st segs = .error e := by
  intro segs
  induction segs with
  | nil =>
    intro st h
    rcases h with ⟨n, hn, -⟩ | h
    · simp [bindingNames] at hn
    · simp [bindingNames] at h
  | cons seg rest ih =>
    intro st h
    cases hp : parseBinding seg with
    | none =>
      have hb : bindingNames (seg :: rest) = bindingNames rest := by
        simp [bindingNames, hp]
      rw [hb] at h
      obtain ⟨e, he⟩ :=
        ih { st with processed := [Part.lit seg] :: st.processed } h
      refine ⟨e, ?_⟩
      unfold compileSegs
      rw [show processSegment st seg
            = .ok { st with processed := [Part.lit seg] :: st.processed } by
          simp [processSegment, hp]]
      exact he
    | some b =>
      have hb : bindingNames (seg :: rest) = b.name :: bindingNames rest := by
        simp [bindingNames, hp]
      rw [hb] at h
      by_cases hmem : b.name ∈ st.convs.map Prod.fst
      · refine ⟨.duplicateBinding b.name, ?_⟩
        unfold compileSegs
        rw [show processSegment st seg = .error (.duplicateBinding b.name) by
          simp [processSegment, hp, processBinding_dup hmem]]
      · cases hps : processBinding st b with
        | error e =>
          refine ⟨e, ?_⟩
          unfold compileSegs
          rw [show processSegment st seg = .error e by simp [processSegment, hp, hps]]
        | ok st2 =>
          have hkeys := processBinding_keys hps
          have h2 : (∃ n ∈ bindingNames rest, n ∈ st2.convs.map Prod.fst)
              ∨ ¬ (bindingNames rest).Nodup := by
            rcases h with ⟨n, hn, hkey⟩ | hnd
            · rcases List.mem_cons.1 hn with rfl | hn2
              · exact absurd hkey hmem
              · exact .inl ⟨n, hn2, by rw [hkeys]; exact List.mem_append_left _ hkey⟩
            · rw [List.nodup_cons] at hnd
              push_neg at hnd
              by_cases hin : b.name ∈ bindingNames rest
              · exact .inl ⟨b.name, hin, by
                  rw [hkeys]
                  exact List.mem_append_right _ (List.mem_singleton_self _)⟩
              · exact .inr (hnd hin)
          obtain ⟨e, he⟩ := ih st2 h2
          refine ⟨e, ?_⟩
          unfold compileSegs
          rw [show processSegment st seg = .ok st2 by simp [processSegment, hp, hps]]
          exact he

/-- C8: every path template containing two binding segments with the same name
fails to compile with a configuration error, and no compiled expression is
produced. The raised error is the duplicate-binding one whenever the earlier
occurrence itself compiled; an invalid earlier binding raises its own
configuration error first, and in every case compilation errors out. -/
theorem c8_duplicate_binding_always_errors (tmpl : String)
    (h : ¬ (bindingNames (pySplit '/' tmpl.toList)).Nodup) :
    (∃ e, _compile tmpl = .error e) ∧ ∀ c, _compile tmpl ≠ .ok c := by
  obtain ⟨e, he⟩ :=
    compileSegs_error_of_dup (pySplit '/' tmpl.toList) ⟨[], []⟩ (.inr h)
  have hc : _compile tmpl = .error e := by
    simp only [_compile, he]
  refine ⟨⟨e, hc⟩, fun c hcontra => ?_⟩
  rw [hc] at hcontra
  cases hcontra

/-- Witness for C8 at a template repeating one binding name. -/
theorem c8_witness :
    (¬ (bindingNames (pySplit '/' ("/<a>/<a>").toList)).Nodup)
    ∧ ((∃ e, _compile "/<a>/<a>" = .error e) ∧ ∀ c, _compile "/<a>/<a>" ≠ .ok c) :=
  ⟨by decide, c8_duplicate_binding_always_errors "/<a>/<a>" (by decide)⟩

/-- Python dict update on association lists: existing keys keep their position
and take the new value, new keys are appended in their own order. -/
def dictUpdate {α : Type} (old new : List (String × α)) : List (String × α) :=
  (old.map (fun p => (p.1, (alookup new p.1).getD p.2)))
    ++ new.filter (fun p => (alookup old p.1).isNone)

/-- The reserved built-in argument names of the source. -/
def RESERVED_ARGS : List String :=
  ["request", "next", "context", "_application", "_route"]

/-- An endpoint target, identified by a tag; its call behaviour is outside this
core. -/
structure Endpoint where
  eid : Nat
deriving DecidableEq

/-- Modelled from the spec: a middleware is identified by a tag and declares the
argument names it requires (clastic.middleware is not under src). -/
structure Middleware where
  mid : Nat
  requires : List String
deriving DecidableEq

/-- A render argument as passed to the route constructor: a plain value handed
to a render factory, or a directly callable render function. -/
inductive RArg where
  | value (v : Nat)
  | callableFn (f : Nat)
deriving DecidableEq

/-- A resolved render function: a factory applied to the render argument, a
directly supplied callable, or the identity pass-through. -/
inductive Render where
  | fromFactory (factory : Nat) (arg : Nat)
  | fn (f : Nat)
  | identityFn
deriving DecidableEq

/-- Modelled from the spec: the composed execution chain is recorded as the
data it was composed from, the middleware wrapping, the endpoint, the render,
and the provided-name set it was validated against (make_middleware_chain is
not under src). -/
structure Chain where
  middlewares : List Middleware
  endpoint : Endpoint
  render : Render
  provided : List String
deriving DecidableEq

/-- The owning application as read by bind: identity, resource mapping,
middleware sequence and an optional render factory. -/
structure App where
  aid : Nat
  resources : List (String × Val)
  middlewares : List Middleware
  render_factory : Option Nat

/-- The mutable state of a Route object. The oid field models Python object
identity: a construction or a copy allocates a fresh oid, and methods
returning self return a route with the same oid. -/
structure Route where
  oid : Nat
  pattern : String
  endpoint : Endpoint
  compiled : Compiled
  render_arg : Option RArg
  _middlewares : List Middleware
  _resources : List (String × Val)
  _bound_apps : List App
  _render : Option Render
  _render_factory : Option Nat
  _execute : Option Chain

/-- Modelled from the spec: deterministic order-stable middleware merge with the
route-local entries preceding the application ones (merge_middlewares is not
under src). -/
def merge_middlewares (own : List Middleware) (app : List Middleware) :
    List Middleware :=
  own ++ app

/-- Modelled from the spec: middleware validation succeeds exactly when every
declared requirement is covered by the union of the provided argument sources
(check_middlewares is not under src). -/
def check_middlewares (mws : List Middleware) (avail : List String) : Bool :=
  mws.all (fun mw => mw.requires.all (fun n => avail.contains n))

/-- Modelled from the spec: chain composition, performed once per bind after
validation has succeeded. -/
def make_middleware_chain (mws : List Middleware) (ep : Endpoint) (r : Render)
    (provided : List String) : Chain :=
  { middlewares := mws, endpoint := ep, render := r, provided := provided }

/-- The provided-argument set of Route._bind_args: url binding names, the
reserved built-in names and the resource keys, as one membership set. -/
def bindProvided (self : Route) (resources : List (String × Val)) : List String :=
  self.compiled.converters.map Prod.fst ++ RESERVED_ARGS ++ resources.map Prod.fst

/-- Configuration error raised at bind time by middleware validation. -/
inductive BindErr where
  | unsatisfiableMiddleware
deriving DecidableEq

/-- The render resolution of Route._bind_args: a callable factory applied to a
non-callable render argument wins, else a previously set callable render, else
the identity pass-through. -/
def resolveRender (render_factory : Option Nat) (render_arg : Option RArg)
    (cur : Option Render) : Render :=
  match render_factory, render_arg with
  | some f, some (.value v) => .fromFactory f v
  | _, _ =>
    match cur with
    | some r => r
    | none => .identityFn

/-- Route._bind_args: validate the merged middlewares against the provided
names, resolve the render, compose the chain, and only then commit the merged
state onto the route; a validation failure raises before any mutation, so the
route component of the result is unchanged in that case. -/
def Route._bind_args (self : Route) (resources : List (String × Val))
    (middlewares : List Middleware) (render_factory : Option Nat) :
    Route × Option BindErr :=
  let avail := bindProvided self resources
  if check_middlewares middlewares avail then
    let r := resolveRender render_factory self.render_arg self._render
    ({ self with
        _resources := dictUpdate self._resources resources,
        _middlewares := middlewares,
        _render_factory := render_factory,
        _render := some r,
        _execute := some (make_middleware_chain middlewares self.endpoint r avail) },
      none)
  else (self, some .unsatisfiableMiddleware)

/-- Route.empty: a fresh object of the same type whose attributes are copied
from the original, with its own list and dictionary copies; in this pure model
only the object identity differs. -/
def Route.empty (self : Route) (freshOid : Nat) : Route :=
  { self with oid := freshOid }

/-- Route.bind: read the application state, merge resources and middlewares,
run the trial bind on a fresh copy, and only on success commit the same merged
state into the original route and append the application to its bound history;
the original route itself is what the call returns. -/
def Route.bind (self : Route) (app : App) (rebind_render : Bool) (freshOid : Nat) :
    Route × Option BindErr :=
  let render_factory := if rebind_render then app.render_factory else self._render_factory
  let merged_resources := dictUpdate self._resources app.resources
  let merged_mw := merge_middlewares self._middlewares app.middlewares
  match ((self.empty freshOid)._bind_args merged_resources merged_mw render_factory).2 with
  | some e => (self, some e)
  | none =>
    match self._bind_args merged_resources merged_mw render_factory with
    | (self2, some e) => (self2, some e)
    | (self2, none) => ({ self2 with _bound_apps := self2._bound_apps ++ [app] }, none)

/-- A value available for injection at dispatch time. -/
inductive ArgVal where
  | routeRef (oid : Nat)
  | appRef (aid : Nat)
  | reqVal (rid : Nat)
  | val (v : Val)

/-- The symbolic invocation of a chain by the injector: the chain together with
the injectables mapping it was called with. -/
structure Invocation where
  chain : Chain
  args : List (String × ArgVal)

/-- Failures of Route.execute: the empty bound-history lookup, the distinguished
configuration-error exception defined by the code for a missing endpoint, and
the attempt to call an absent chain. -/
inductive ExecErr where
  | indexError
  | invalidEndpoint
  | notCallable
deriving DecidableEq

/-- Whether an execution failure is the configuration-error exception the code
defines for dispatch misconfiguration (InvalidEndpoint on the base class); the
bound-history lookup failure and the missing-chain call are ordinary built-in
exceptions, not of that kind. -/
def ExecErr.isConfigurationError : ExecErr → Bool
  | .invalidEndpoint => true
  | _ => false

/-- Route.execute: the most-recently-bound application is looked up on the
bound history first, then the injectables mapping is built from the builtins,
the bound resources and the path arguments, and the chain is invoked through
the injector, modelled from the spec as the symbolic invocation. -/
def Route.execute (self : Route) (request : ArgVal)
    (kwargs : List (String × ArgVal)) : Except ExecErr Invocation :=
  match self._bound_apps.getLast? with
  | none => .error .indexError
  | some app =>
    let injectables :=
      dictUpdate
        (dictUpdate
          [("_route", ArgVal.routeRef self.oid), ("request", request),
           ("_application", ArgVal.appRef app.aid)]
          (self._resources.map (fun p => (p.1, ArgVal.val p.2))))
        kwargs
    match self._execute with
    | none => .error .notCallable
    | some ch => .ok { chain := ch, args := injectables }

/-- Route construction: compile the pattern, keep the endpoint and the render
argument, and initialise the bindable state; a callable render argument is
installed as the render function immediately. -/
def mkRoute (oid : Nat) (pattern : String) (ep : Endpoint)
    (render_arg : Option RArg) : Except CompileErr Route :=
  match _compile pattern with
  | .error e => .error e
  | .ok c =>
    .ok { oid := oid, pattern := pattern, endpoint := ep, compiled := c,
          render_arg := render_arg,
          _middlewares := [], _resources := [], _bound_apps := [],
          _render := match render_arg with
                     | some (.callableFn f) => some (.fn f)
                     | _ => none,
          _render_factory := none, _execute := none }

/-- A default route value used only to discharge the option in the concrete
demonstration routes. -/
def routeFallback : Route :=
  { oid := 0, pattern := "", endpoint := ⟨0⟩, compiled := ⟨[], []⟩,
    render_arg := none, _middlewares := [], _resources := [], _bound_apps := [],
    _render := none, _render_factory := none, _execute := none }

/-- Helper: lookup distributes over append, first list first. -/
theorem alookup_append {α : Type} (l1 l2 : List (String × α)) (k : String) :
    alookup (l1 ++ l2) k =
      match alookup l1 k with
      | some v => some v
      | none => alookup l2 k := by
  induction l1 with
  | nil => rfl
  | cons h t ih =>
    obtain ⟨a, b⟩ := h
    by_cases hk : a = k
    · subst hk
      simp [alookup]
    · simp [alookup, hk, ih]

/-- Helper: lookup over the overwrite half of a dict update. -/
theorem alookup_dict_map {α : Type} (old new : List (String × α)) (k : String) :
    alookup (old.map (fun p => (p.1, (alookup new p.1).getD p.2))) k
      = (alookup old k).map (fun v => (alookup new k).getD v) := by
  induction old with
  | nil => rfl
  | cons h t ih =>
    obtain ⟨a, b⟩ := h
    by_cases hk : a = k
    · subst hk
      simp [alookup]
    · simp [alookup, hk, ih]

/-- Helper: lookup over the fresh-key half of a dict update. -/
theorem alookup_dict_filter {α : Type} (old new : List (String × α)) (k : String) :
    alookup (new.filter (fun p => (alookup old p.1).isNone)) k
      = if (alookup old k).isNone then alookup new k else none := by
  induction new with
  | nil => simp [alookup]
  | cons h t ih =>
    obtain ⟨a, b⟩ := h
    by_cases hk : a = k
    · subst hk
      cases hq : (alookup old a).isNone <;>
        simp [alookup, List.filter, hq, ih]
    · cases hq : (alookup old a).isNone <;>
        simp [alookup, List.filter, hq, hk, ih]

/-- Helper: lookup through a Python dict update, new entries win. -/
theorem alookup_dictUpdate {α : Type} (old new : List (String × α)) (k : String) :
    alookup (dictUpdate old new) k =
      match alookup new k with
      | some v => some v
      | none => alookup old k := by
  unfold dictUpdate
  rw [alookup_append, alookup_dict_map, alookup_dict_filter]
  cases ho : alookup old k <;> cases hn : alookup new k <;> simp [ho, hn]

/-- Helper: full characterisation of one bind call. The trial on the copy runs
the same validation as the commit, so the call either fails middleware
validation and returns the untouched original route with the error, or commits
exactly the merged state and appends the application to the history. -/
theorem bind_spec (r : Route) (app : App) (rb : Bool) (oid : Nat) :
    Route.bind r app rb oid =
      if check_middlewares (merge_middlewares r._middlewares app.middlewares)
          (bindProvided r (dictUpdate r._resources app.resources)) then
        ({ r with
            _resources := dictUpdate r._resources (dictUpdate r._resources app.resources),
            _middlewares := merge_middlewares r._middlewares app.middlewares,
            _render_factory := (if rb then app.render_factory else r._render_factory),
            _render := some (resolveRender
              (if rb then app.render_factory else r._render_factory)
              r.render_arg r._render),
            _execute := some (make_middleware_chain
              (merge_middlewares r._middlewares app.middlewares) r.endpoint
              (resolveRender (if rb then app.render_factory else r._render_factory)
                r.render_arg r._render)
              (bindProvided r (dictUpdate r._resources app.resources))),
            _bound_apps := r._bound_apps ++ [app] }, none)
      else (r, some BindErr.unsatisfiableMiddleware) := by
  have bind_args_spec : ∀ (s : Route) (res : List (String × Val))
      (mw : List Middleware) (rf : Option Nat),
      Route._bind_args s res mw rf =
        if check_middlewares mw (bindProvided s res) then
          ({ s with
              _resources := dictUpdate s._resources res,
              _middlewares := mw,
              _render_factory := rf,
              _render := some (resolveRender rf s.render_arg s._render),
              _execute := some (make_middleware_chain mw s.endpoint
                (resolveRender rf s.render_arg s._render) (bindProvided s res)) },
            none)
        else (s, some BindErr.unsatisfiableMiddleware) := fun _ _ _ _ => rfl
  simp only [Route.bind]
  rw [bind_args_spec (Route.empty r oid), bind_args_spec r]
  rw [show bindProvided (Route.empty r oid) (dictUpdate r._resources app.resources)
        = bindProvided r (dictUpdate r._resources app.resources) from rfl]
  by_cases hc : check_middlewares (merge_middlewares r._middlewares app.middlewares)
      (bindProvided r (dictUpdate r._resources app.resources)) = true
  · rw [if_pos hc, if_pos hc, if_pos hc]
  · rw [if_neg hc, if_neg hc, if_neg hc]

def c3route : Route := (mkRoute 3 "/y" ⟨30⟩ none).toOption.getD routeFallback

def c3app1 : App := { aid := 11, resources := [], middlewares := [⟨1, []⟩],
                      render_factory := none }

def c3app2 : App := { aid := 12, resources := [], middlewares := [⟨2, []⟩],
                      render_factory := none }

def c3r1 : Route := (Route.bind c3route c3app1 true 101).1

def c3r2 : Route := (Route.bind c3r1 c3app2 true 102).1

/-- C3 counterexample: binding one compiled route into two applications with
different middleware sets yields, from both calls, a route with the identity of
the original object, not fresh copies; and the second bind changes the chain of
that shared object, so the chain the first application obtained is not
independent of the second bind. -/
theorem c3_counterexample :
    (Route.bind c3route c3app1 true 101).2 = none
    ∧ (Route.bind c3r1 c3app2 true 102).2 = none
    ∧ c3r1.oid = c3route.oid
    ∧ c3r2.oid = c3route.oid
    ∧ c3r1._execute ≠ c3r2._execute := by
  refine ⟨rfl, rfl, rfl, rfl, ?_⟩
  decide

/-- C3 amended: each successful bind commits into and returns the original
route object itself, the fresh copy serving only as the trial, so successive
binds of one compiled route yield one shared object whose chain reflects the
latest bind; the committed chain is a pure function of the bind-time snapshot
of the merged middlewares, resolved render and provided names, so mutating an
application middleware list after binding cannot alter an already-committed
chain. -/
theorem c3_bind_returns_original_object
    (r : Route) (app : App) (rb : Bool) (oid : Nat) (r2 : Route)
    (h : Route.bind r app rb oid = (r2, none)) :
    r2.oid = r.oid
    ∧ r2._execute = some (make_middleware_chain
        (merge_middlewares r._middlewares app.middlewares) r.endpoint
        (resolveRender (if rb then app.render_factory else r._render_factory)
          r.render_arg r._render)
        (bindProvided r (dictUpdate r._resources app.resources))) := by
  rw [bind_spec] at h
  by_cases hc : check_middlewares (merge_middlewares r._middlewares app.middlewares)
      (bindProvided r (dictUpdate r._resources app.resources)) = true
  · rw [if_pos hc] at h
    injection h with h1 h2
    subst h1
    exact ⟨rfl, rfl⟩
  · rw [if_neg hc] at h
    injection h with h1 h2
    cases h2

/-- Witness for C3 at a concrete successful bind. -/
theorem c3_witness :
    Route.bind c3route c3app1 true 101 = ((Route.bind c3route c3app1 true 101).1, none)
    ∧ ((Route.bind c3route c3app1 true 101).1.oid = c3route.oid
      ∧ (Route.bind c3route c3app1 true 101).1._execute = some (make_middleware_chain
          (merge_middlewares c3route._middlewares c3app1.middlewares) c3route.endpoint
          (resolveRender (if true then c3app1.render_factory else c3route._render_factory)
            c3route.render_arg c3route._render)
          (bindProvided c3route (dictUpdate c3route._resources c3app1.resources)))) :=
  ⟨rfl, c3_bind_returns_original_object c3route c3app1 true 101
    ((Route.bind c3route c3app1 true 101).1) rfl⟩

/-- C4: for every route and every application whose merged middlewares require
a name outside the provided-argument set, bind raises the configuration error
and returns the route in exactly its previous committed state: the trial bind
on the fresh copy fails before any mutation of the original is made. -/
theorem c4_failing_bind_leaves_route_unchanged
    (r : Route) (app : App) (rb : Bool) (oid : Nat)
    (h : ∃ mw ∈ merge_middlewares r._middlewares app.middlewares,
         ∃ nm ∈ mw.requires,
           nm ∉ bindProvided r (dictUpdate r._resources app.resources)) :
    Route.bind r app rb oid = (r, some BindErr.unsatisfiableMiddleware) := by
  rw [bind_spec]
  rw [if_neg ?hcheck]
  case hcheck =>
    intro hcm
    obtain ⟨mw, hmw, nm, hnm, hnmem⟩ := h
    rw [check_middlewares, List.all_eq_true] at hcm
    have h2 := hcm mw hmw
    rw [List.all_eq_true] at h2
    exact hnmem (List.elem_iff.1 (h2 nm hnm))

def c4route : Route := (mkRoute 2 "/x" ⟨20⟩ none).toOption.getD routeFallback

def c4app : App := { aid := 13, resources := [], middlewares := [⟨5, ["db"]⟩],
                     render_factory := none }

/-- Witness for C4 at a middleware requiring a name nobody provides. -/
theorem c4_witness :
    (∃ mw ∈ merge_middlewares c4route._middlewares c4app.middlewares,
      ∃ nm ∈ mw.requires,
        nm ∉ bindProvided c4route (dictUpdate c4route._resources c4app.resources))
    ∧ Route.bind c4route c4app true 9 = (c4route, some BindErr.unsatisfiableMiddleware) :=
  ⟨by decide, c4_failing_bind_leaves_route_unchanged c4route c4app true 9 (by decide)⟩

def c6route : Route := (mkRoute 4 "/z" ⟨40⟩ none).toOption.getD routeFallback

/-- C6 counterexample: executing a never-bound route does fail, but with the
bound-application history lookup failure, which is not the configuration-error
exception the code defines for dispatch misconfiguration, refuting the claimed
error kind. -/
theorem c6_counterexample :
    Route.execute c6route (ArgVal.reqVal 0) [] = .error .indexError
    ∧ ExecErr.isConfigurationError .indexError = false :=
  ⟨rfl, rfl⟩

/-- C6 amended: for every route whose bound-application history is empty, that
is a route never successfully bound, execute fails by raising the history
lookup error before the chain or the injector is ever consulted; the
InvalidEndpoint guard exists only on the base class and the override loses it. -/
theorem c6_unbound_execute_raises_index_error
    (r : Route) (request : ArgVal) (kwargs : List (String × ArgVal))
    (h : r._bound_apps = []) :
    Route.execute r request kwargs = .error .indexError := by
  unfold Route.execute
  rw [h]
  rfl

/-- Witness for C6 at a concrete unbound route. -/
theorem c6_witness :
    c6route._bound_apps = []
    ∧ Route.execute c6route (ArgVal.reqVal 1) [] = Except.error ExecErr.indexError :=
  ⟨rfl, c6_unbound_execute_raises_index_error c6route (ArgVal.reqVal 1) [] rfl⟩

/-- Helper: the committed resource mapping after a successful bind. -/
theorem bind_ok_resources {r r2 : Route} {app : App} {rb : Bool} {oid : Nat}
    (h : Route.bind r app rb oid = (r2, none)) :
    r2._resources = dictUpdate r._resources (dictUpdate r._resources app.resources) := by
  rw [bind_spec] at h
  by_cases hc : check_middlewares (merge_middlewares r._middlewares app.middlewares)
      (bindProvided r (dictUpdate r._resources app.resources)) = true
  · rw [if_pos hc] at h
    injection h with h1 h2
    subst h1
    rfl
  · rw [if_neg hc] at h
    injection h with h1 h2
    cases h2

/-- C10: resources accumulate across successive binds: a resource contributed
by the first application and not overridden by the second is still present in
the state committed by the second bind, and its key belongs to the
provided-argument set the second bind validates its middlewares against. -/
theorem c10_resources_accumulate
    (r : Route) (a1 a2 : App) (rb1 rb2 : Bool) (o1 o2 : Nat) (r1 r2 : Route)
    (h1 : Route.bind r a1 rb1 o1 = (r1, none))
    (h2 : Route.bind r1 a2 rb2 o2 = (r2, none))
    (k : String) (v : Val)
    (hk1 : alookup a1.resources k = some v)
    (hk2 : alookup a2.resources k = none) :
    alookup r2._resources k = some v
    ∧ k ∈ bindProvided r1 (dictUpdate r1._resources a2.resources) := by
  have hr1 := bind_ok_resources h1
  have hr2 := bind_ok_resources h2
  have hl1 : alookup r1._resources k = some v := by
    rw [hr1, alookup_dictUpdate, alookup_dictUpdate, hk1]
  have hmerged : alookup (dictUpdate r1._resources a2.resources) k = some v := by
    rw [alookup_dictUpdate, hk2, hl1]
  constructor
  · rw [hr2, alookup_dictUpdate, hmerged]
  · have hkmem : k ∈ (dictUpdate r1._resources a2.resources).map Prod.fst :=
      (alookup_isSome_iff _ _).1 (by rw [hmerged]; rfl)
    exact List.mem_append_right _ hkmem

def c10route : Route := (mkRoute 6 "/w" ⟨60⟩ none).toOption.getD routeFallback

def c10app1 : App := { aid := 21, resources := [("db", Val.vint 7)],
                       middlewares := [], render_factory := none }

def c10app2 : App := { aid := 22, resources := [("cfg", Val.vint 8)],
                       middlewares := [], render_factory := none }

def c10r1 : Route := (Route.bind c10route c10app1 true 201).1

def c10r2 : Route := (Route.bind c10r1 c10app2 true 202).1

/-- Witness for C10 at two successive binds contributing distinct resources. -/
theorem c10_witness :
    Route.bind c10route c10app1 true 201 = (c10r1, none)
    ∧ Route.bind c10r1 c10app2 true 202 = (c10r2, none)
    ∧ alookup c10app1.resources "db" = some (Val.vint 7)
    ∧ alookup c10app2.resources "db" = none
    ∧ (alookup c10r2._resources "db" = some (Val.vint 7)
      ∧ "db" ∈ bindProvided c10r1 (dictUpdate c10r1._resources c10app2.resources)) :=
  ⟨rfl, rfl, rfl, rfl,
    c10_resources_accumulate c10route c10app1 c10app2 true true 201 202 c10r1 c10r2
      rfl rfl "db" (Val.vint 7) rfl rfl⟩

end Clastic
